import Mathlib

/-!
Verification of the ride-dispatch engine of a ride-sharing backend.

The JavaScript source is shallowly embedded: JS numbers are modelled as
rationals, Math.round(x) as the floor of x + 1/2 (JS rounds half towards
positive infinity), Math.floor as the integer floor, and mongoose
documents as Lean structures holding exactly the fields that the embedded
operations read or write.  Route handlers become pure functions from an
explicit world (the relevant database documents) to a result code paired
with the updated world.  The geodesic distance computed by the geolib
library and by the MongoDB near-query is not re-derived from coordinates;
instead every embedded query or handler receives the relevant distance as
an explicit input, which is the only fact about the geometry the control
flow inspects.
-/

/-- JS Math.round: rounds to the nearest integer, halves towards plus
infinity, i.e. the floor of x + 1/2. -/
def mathRound (q : ℚ) : ℤ := ⌊q + 1/2⌋

/-- Ride status enumeration, from the status enum of the Ride schema
(models/Ride.js). -/
inductive Status where
  | requested
  | searching
  | driver_assigned
  | driver_arrived
  | pickup_confirmed
  | in_progress
  | completed
  | cancelled
  | payment_pending
deriving DecidableEq, Repr

/-- Per-vehicle-class fare configuration (routes/rides.js, getFareConfig). -/
structure FareConfig where
  baseRate : ℚ
  perKmRate : ℚ
  perMinuteRate : ℚ
  minimumFare : ℚ
deriving DecidableEq, Repr

/-- getFareConfig from routes/rides.js: four class configurations, any
other string falls back to the car configuration. -/
def getFareConfig (vehicleType : String) : FareConfig :=
  if vehicleType = "bike" then ⟨20, 8, 1, 25⟩
  else if vehicleType = "auto" then ⟨30, 12, 3/2, 40⟩
  else if vehicleType = "car" then ⟨50, 15, 2, 60⟩
  else if vehicleType = "suv" then ⟨70, 20, 5/2, 80⟩
  else ⟨50, 15, 2, 60⟩

/-- Surge subdocument of a ride (models/Ride.js): active flag and
multiplier, schema defaults false and 1. -/
structure Surge where
  isActive : Bool
  multiplier : ℚ
deriving DecidableEq, Repr

/-- Fare breakdown subdocument of a ride (models/Ride.js).  Fields not
read or written by any embedded operation are omitted. -/
structure Fare where
  baseFare : ℚ
  distanceFare : ℚ
  timeFare : ℚ
  surgeFare : ℚ
  platformFee : ℚ
  taxes : ℚ
  tip : ℚ
  discount : ℚ
  couponDiscount : ℚ
  totalFare : ℚ
  driverEarning : ℚ
  platformCommission : ℚ
deriving DecidableEq, Repr

/-- Schema defaults for the fare subdocument as the ride-request route
creates it: every component zero. -/
def Fare.init : Fare := ⟨0, 0, 0, 0, 0, 0, 0, 0, 0, 0, 0, 0⟩

/-- One entry of the real-time driver location ring (models/Ride.js,
driverLocation). -/
structure DLoc where
  coordinates : List ℚ
  timestamp : ℕ
  heading : ℚ
  speed : ℚ
deriving DecidableEq, Repr

/-- The Ride document (models/Ride.js), restricted to the fields the
embedded routes and methods touch.  The passenger and driver references
are identifiers; driver is null until assignment. -/
structure RideDoc where
  passenger : ℕ
  driver : Option ℕ
  vehicleType : String
  distance : ℚ
  estimatedDuration : ℚ
  fare : Fare
  status : Status
  otp : ℕ
  surge : Surge
  assignedAt : Option ℕ
  pickedUpAt : Option ℕ
  droppedAt : Option ℕ
  completedAt : Option ℕ
  cancelledAt : Option ℕ
  cancellationReason : Option String
  paymentStatus : String
  driverLocation : List DLoc
deriving DecidableEq, Repr

/-- calculateFare (models/Ride.js): computes the fare breakdown in place
on the ride from its distance, estimated duration, surge state and the
pre-existing discount fields, and stores the rounded totals. -/
def calculateFare (ride : RideDoc) (cfg : FareConfig) : RideDoc :=
  let baseFare := cfg.baseRate
  let distanceFare := ride.distance * cfg.perKmRate
  let timeFare := ride.estimatedDuration * cfg.perMinuteRate
  let subtotal0 := baseFare + distanceFare + timeFare
  -- the surge branch: only taken when surge.isActive; otherwise the
  -- stored surgeFare field is left as it was and nothing is added
  let fare1 : Fare :=
    if ride.surge.isActive then
      { ride.fare with
        baseFare := baseFare
        distanceFare := distanceFare
        timeFare := timeFare
        surgeFare := subtotal0 * (ride.surge.multiplier - 1) }
    else
      { ride.fare with
        baseFare := baseFare
        distanceFare := distanceFare
        timeFare := timeFare }
  let subtotal := if ride.surge.isActive then subtotal0 + fare1.surgeFare else subtotal0
  let platformFee : ℚ := ((mathRound (subtotal * (5/100)) : ℤ) : ℚ)
  let taxes : ℚ := ((mathRound (subtotal * (18/100)) : ℤ) : ℚ)
  let total0 := subtotal + platformFee + taxes
  let total1 := total0 - (fare1.discount + fare1.couponDiscount)
  let total2 := max total1 cfg.minimumFare
  let totalFare : ℚ := ((mathRound total2 : ℤ) : ℚ)
  let driverEarning : ℚ := ((mathRound (totalFare * (8/10)) : ℤ) : ℚ)
  { ride with fare :=
    { fare1 with
      platformFee := platformFee
      taxes := taxes
      totalFare := totalFare
      driverEarning := driverEarning
      platformCommission := totalFare - driverEarning } }

/-- calculateEstimatedDuration (routes/rides.js): minutes at an average
speed of 25 km/h, rounded up. -/
def calculateEstimatedDuration (distance : ℚ) : ℤ := ⌈distance / 25 * 60⌉

/-- generateOTP (routes/rides.js): Math.floor(1000 + Math.random() * 9000),
with the value of Math.random() passed in as the rational rand. -/
def generateOTP (rand : ℚ) : ℕ := (⌊(1000 : ℚ) + rand * 9000⌋).toNat

/-- Counters subdocument of a driver (models/Driver.js, stats),
restricted to the fields the embedded routes touch. -/
structure Stats where
  totalRides : ℕ
  totalDistance : ℚ
deriving DecidableEq, Repr

/-- Earnings subdocument of a driver (models/Driver.js, earnings). -/
structure EarningsRec where
  today : ℚ
  thisWeek : ℚ
  thisMonth : ℚ
  total : ℚ
deriving DecidableEq, Repr

/-- The Driver document (models/Driver.js), restricted to the fields the
embedded routes touch.  distToPickup carries the geodesic distance in
meters from the current location of the driver to the pickup point of
the request under consideration; it stands for what the MongoDB
near-query compares against maxDistance. -/
structure DriverDoc where
  vehicleType : String
  isAvailable : Bool
  isOnline : Bool
  approvalStatus : String
  backgroundCheckStatus : String
  distToPickup : ℚ
  stats : Stats
  earnings : EarningsRec
deriving DecidableEq, Repr

/-- The User document of a passenger (models/User.js is not under src;
only its totalRides counter is touched by the embedded routes, and the
completed branch of the status route increments it). -/
structure PassengerDoc where
  totalRides : ℕ
deriving DecidableEq, Repr

/-- updateEarnings (models/Driver.js): adds the amount to all four
earning buckets. -/
def updateEarnings (e : EarningsRec) (amount : ℚ) : EarningsRec :=
  ⟨e.today + amount, e.thisWeek + amount, e.thisMonth + amount, e.total + amount⟩

/-- isAvailableForRides (models/Driver.js): available, online and doubly
approved. -/
def isAvailableForRides (d : DriverDoc) : Bool :=
  d.isAvailable && d.isOnline && d.approvalStatus == "approved"
    && d.backgroundCheckStatus == "approved"

/-- The candidate filter of the driver search in the ride-request route
(routes/rides.js, Driver.find): matching vehicle class, available,
online, doubly approved, and within radius meters of the pickup point. -/
def driverQueryMatch (vehicleType : String) (radius : ℚ) (d : DriverDoc) : Bool :=
  d.vehicleType == vehicleType && d.isAvailable && d.isOnline
    && d.approvalStatus == "approved" && d.backgroundCheckStatus == "approved"
    && d.distToPickup ≤ radius

/-- The driver search of the ride-request route: all drivers in the
store passing the candidate filter. -/
def findNearbyDrivers (drivers : List DriverDoc) (vehicleType : String)
    (radius : ℚ) : List DriverDoc :=
  drivers.filter (driverQueryMatch vehicleType radius)

/-- Result codes of the ride-request route (routes/rides.js, POST
request). -/
inductive RequestRes where
  /-- 400, message: Minimum distance is 0.5 km. -/
  | minDistanceError
  /-- 400, message: No drivers available in your area. -/
  | noDriversAvailable
  /-- 201, ride requested successfully. -/
  | created
deriving DecidableEq, Repr

/-- The ride-request route (routes/rides.js, POST request), after Joi
validation, for a passenger identifier and vehicle class.  The
geolib-computed trip distance in kilometers is the distance input, and
rand is the Math.random() sample used for the OTP.  There is a single
driver search, at a radius of 5000 meters; when it is empty the ride is
saved as cancelled with reason No drivers available, otherwise it is
saved as searching. -/
def requestRide (passengerId : ℕ) (distance : ℚ) (vehicleType : String)
    (drivers : List DriverDoc) (rand : ℚ) : RequestRes × Option RideDoc :=
  if distance < 1/2 then (.minDistanceError, none)
  else
    let otp := generateOTP rand
    let ride0 : RideDoc :=
      { passenger := passengerId
        driver := none
        vehicleType := vehicleType
        distance := distance
        estimatedDuration := ((calculateEstimatedDuration distance : ℤ) : ℚ)
        fare := Fare.init
        status := .requested
        otp := otp
        surge := ⟨false, 1⟩
        assignedAt := none
        pickedUpAt := none
        droppedAt := none
        completedAt := none
        cancelledAt := none
        cancellationReason := none
        paymentStatus := "pending"
        driverLocation := [] }
    let ride1 := calculateFare ride0 (getFareConfig vehicleType)
    let maxDistance : ℚ := 5000
    let availableDrivers := findNearbyDrivers drivers vehicleType maxDistance
    if availableDrivers.isEmpty then
      (.noDriversAvailable,
        some { ride1 with status := .cancelled,
                          cancellationReason := some "No drivers available" })
    else
      (.created, some { ride1 with status := .searching })

/-- Result codes of the accept route (routes/rides.js, POST accept). -/
inductive AcceptRes where
  /-- 404, ride not found. -/
  | notFound
  /-- 400, message: Ride is not available for acceptance; the
  AlreadyAssigned outcome of the error taxonomy of the spec. -/
  | alreadyAssigned
  /-- 400, message: Driver not available. -/
  | driverNotAvailable
  /-- 400, message: Too far from pickup location. -/
  | tooFar
  /-- 200, ride accepted. -/
  | accepted
deriving DecidableEq, Repr

/-- World of one sequential acceptance attempt: the ride looked up by
identifier (none when absent), the Driver document of the caller (none
when absent), and the geolib distance in meters from the submitted
current location of the caller to the pickup point. -/
structure AcceptWorld where
  ride : Option RideDoc
  callerDriver : Option DriverDoc
  driverDistMeters : ℚ
deriving DecidableEq, Repr

/-- The accept route (routes/rides.js, POST accept), run in isolation
(no interleaving with other attempts): not-found check, status guard,
driver availability guard, 5000 meter distance guard, then assignment of
the ride to the driver and unavailability of the driver. -/
def acceptRide (w : AcceptWorld) (driverId : ℕ) (now : ℕ) :
    AcceptRes × AcceptWorld :=
  match w.ride with
  | none => (.notFound, w)
  | some ride =>
    if ride.status ≠ .searching then (.alreadyAssigned, w)
    else
      match w.callerDriver with
      | none => (.driverNotAvailable, w)
      | some d =>
        if ¬ isAvailableForRides d then (.driverNotAvailable, w)
        else if w.driverDistMeters > 5000 then (.tooFar, w)
        else
          let ride1 := { ride with
            driver := some driverId
            status := .driver_assigned
            assignedAt := some now }
          let d1 := { d with isAvailable := false }
          (.accepted, { w with ride := some ride1, callerDriver := some d1 })

/-- updateStatus (models/Ride.js): sets the status and stamps the
matching timestamp field; completed stamps both completedAt and
droppedAt; statuses without a case in the switch stamp nothing. -/
def rideUpdateStatus (ride : RideDoc) (newStatus : Status) (now : ℕ) : RideDoc :=
  let r := { ride with status := newStatus }
  match newStatus with
  | .driver_assigned => { r with assignedAt := some now }
  | .pickup_confirmed => { r with pickedUpAt := some now }
  | .completed => { r with completedAt := some now, droppedAt := some now }
  | .cancelled => { r with cancelledAt := some now }
  | _ => r

/-- addDriverLocation (models/Ride.js): appends a location sample and
keeps only the last 50 entries. -/
def addDriverLocation (ride : RideDoc) (coordinates : List ℚ) (heading speed : ℚ)
    (now : ℕ) : RideDoc :=
  let l := ride.driverLocation ++ [⟨coordinates, now, heading, speed⟩]
  let l := if l.length > 50 then l.drop (l.length - 50) else l
  { ride with driverLocation := l }

/-- The validTransitions object of the status route (routes/rides.js,
PUT status).  The object has no key for requested and none for
payment_pending, although both are members of the status enum of the
schema: looking those up yields undefined (none); on every other status
it yields the listed array of allowed targets. -/
def validTransitions : Status → Option (List Status)
  | .searching => some [.cancelled]
  | .driver_assigned => some [.driver_arrived, .cancelled]
  | .driver_arrived => some [.pickup_confirmed, .cancelled]
  | .pickup_confirmed => some [.in_progress]
  | .in_progress => some [.completed]
  | .completed => some []
  | .cancelled => some []
  | .requested => none
  | .payment_pending => none

/-- Whether the status route accepts the transition: the source status
has a key in validTransitions and the target is in its array. -/
def codeAllows (source target : Status) : Bool :=
  match validTransitions source with
  | some l => l.contains target
  | none => false

/-- Modelled from the spec: the formal transition table of section 4.2
of the spec (the code of the table itself lives in the route; this
definition transcribes the table of the spec for comparison).  The spec
lists eight states; payment_pending is not among them, so no pair with
that source is in the table. -/
def specTransitionTable : Status → List Status
  | .requested => [.searching, .cancelled]
  | .searching => [.driver_assigned, .cancelled]
  | .driver_assigned => [.driver_arrived, .cancelled]
  | .driver_arrived => [.pickup_confirmed, .cancelled]
  | .pickup_confirmed => [.in_progress]
  | .in_progress => [.completed]
  | .completed => []
  | .cancelled => []
  | .payment_pending => []

/-- Result codes of the status route (routes/rides.js, PUT status). -/
inductive UpdateRes where
  /-- 403, not authorized to update this ride. -/
  | notAuthorized
  /-- 400, message: Invalid status transition. -/
  | invalidTransition
  /-- 500, message: Failed to update ride status — produced by the catch
  block when the handler throws; in particular the lookup
  validTransitions of a status without a key yields undefined and
  calling includes on it throws a TypeError. -/
  | internalError
  /-- 200, ride status updated successfully. -/
  | ok
deriving DecidableEq, Repr

/-- World of the status route: the ride, the Driver document referenced
by its driver field (none when the ride has no driver or the lookup
finds nothing), and the User document of its passenger. -/
structure StatusWorld where
  ride : RideDoc
  driverRec : Option DriverDoc
  passengerRec : Option PassengerDoc
deriving DecidableEq, Repr

/-- Optional location payload of the status route. -/
structure LocInput where
  coordinates : List ℚ
  heading : ℚ
  speed : ℚ
deriving DecidableEq, Repr

/-- The status route (routes/rides.js, PUT status): authorization check
against the passenger and driver references of the ride, transition
validation against validTransitions (a source status without a key
throws, surfacing as the 500 internal error), the updateStatus method,
the optional driver location append, and, for completed only, the
release of the driver with its counters and the passenger ride counter
increment.  No branch of the route touches driver earnings. -/
def updateRideStatus (w : StatusWorld) (userId : ℕ) (target : Status)
    (loc : Option LocInput) (now : ℕ) : UpdateRes × StatusWorld :=
  let isPassenger := w.ride.passenger == userId
  let isDriver := match w.ride.driver with
    | some d => d == userId
    | none => false
  if ¬ (isPassenger || isDriver) then (.notAuthorized, w)
  else
    match validTransitions w.ride.status with
    | none => (.internalError, w)
    | some allowed =>
      if ¬ allowed.contains target then (.invalidTransition, w)
      else
        let ride1 := rideUpdateStatus w.ride target now
        let ride2 := match loc with
          | some l =>
            if isDriver then addDriverLocation ride1 l.coordinates l.heading l.speed now
            else ride1
          | none => ride1
        if target == .completed then
          let driver1 := w.driverRec.map (fun d =>
            { d with
              isAvailable := true
              stats := { d.stats with
                totalRides := d.stats.totalRides + 1
                totalDistance := d.stats.totalDistance + w.ride.distance } })
          let passenger1 := w.passengerRec.map (fun p =>
            { p with totalRides := p.totalRides + 1 })
          (.ok, { ride := ride2, driverRec := driver1, passengerRec := passenger1 })
        else
          (.ok, { w with ride := ride2 })

/-- Payment record created by the payment routes (models under src are
silent on it; amount and the driver earning are copied from the fare of
the ride, as routes/payments.js does). -/
structure PaymentRec where
  amount : ℚ
  driverEarningAmount : ℚ
  commission : ℚ
deriving DecidableEq, Repr

/-- Result codes of the payment-processing route (routes/payments.js,
POST process). -/
inductive PayRes where
  /-- 400, payment not successful at the gateway. -/
  | paymentNotSuccessful
  /-- 200, payment processed. -/
  | paid
deriving DecidableEq, Repr

/-- World of the payment-processing route: the ride, the Driver document
referenced by its driver field, and the status string the gateway
reports for the payment intent. -/
structure PayWorld where
  ride : RideDoc
  driverRec : Option DriverDoc
  intentStatus : String
deriving DecidableEq, Repr

/-- The payment-processing route (routes/payments.js, POST process),
after the parameter and not-found guards: when the gateway reports
succeeded, a payment record is created from the fare of the ride, the
payment status of the ride becomes completed, and the earnings of the
driver are credited with fare.driverEarning through updateEarnings; this
route is where driver earnings are credited, not the status route. -/
def processPayment (w : PayWorld) : PayRes × PayWorld × Option PaymentRec :=
  if w.intentStatus ≠ "succeeded" then (.paymentNotSuccessful, w, none)
  else
    let payment : PaymentRec :=
      { amount := w.ride.fare.totalFare
        driverEarningAmount := w.ride.fare.driverEarning
        commission := w.ride.fare.platformCommission }
    let ride1 := { w.ride with paymentStatus := "completed" }
    let driver1 := w.driverRec.map (fun d =>
      { d with earnings := updateEarnings d.earnings w.ride.fare.driverEarning })
    (.paid, { w with ride := ride1, driverRec := driver1 }, some payment)

/-- State of the acceptance race on one ride (routes/rides.js, POST
accept, executed by several concurrent workers).  Attempt i is an accept
call by eligible driver i (available, online, approved, within 5000
meters, so that only the status guard can reject it).  Each attempt
performs two atomic database operations: first Ride.findById together
with the status guard evaluated on the snapshot just read, then — when
the guard passed — the ride.save and driver.save writes; the save is a
plain last-writer-wins document write, there is no compare-and-set.
phase holds 0 before the read, 1 after it, 2 when finished; passed
records the outcome of the status guard at read time; result records the
response of each finished attempt. -/
structure RaceState where
  rideStatus : Status
  rideDriver : Option ℕ
  avail : List Bool
  phase : List ℕ
  passed : List Bool
  result : List (Option AcceptRes)
deriving DecidableEq, Repr

/-- One atomic step of attempt i of the acceptance race: its read (with
the status guard) when it has not read yet, its commit or rejection when
it has; a finished attempt is unchanged. -/
def raceStep (s : RaceState) (i : ℕ) : RaceState :=
  match s.phase.getD i 2 with
  | 0 =>
    { s with
      phase := s.phase.set i 1
      passed := s.passed.set i (s.rideStatus == .searching) }
  | 1 =>
    if s.passed.getD i false then
      { s with
        rideStatus := .driver_assigned
        rideDriver := some i
        avail := s.avail.set i false
        phase := s.phase.set i 2
        result := s.result.set i (some .accepted) }
    else
      { s with
        phase := s.phase.set i 2
        result := s.result.set i (some .alreadyAssigned) }
  | _ => s

/-- Initial race state: the ride is searching with no driver bound, and
n eligible attempts are pending. -/
def initRace (n : ℕ) : RaceState :=
  { rideStatus := .searching
    rideDriver := none
    avail := List.replicate n true
    phase := List.replicate n 0
    passed := List.replicate n false
    result := List.replicate n none }

/-- Run the acceptance race under a schedule: the list of attempt
indices in the order in which the workers reach the database. -/
def runRace (s : RaceState) (sched : List ℕ) : RaceState :=
  sched.foldl raceStep s

/-- Scenario ride of section 8 of the spec: distance 10 km, estimated
duration 20 minutes, car class, no surge (schema defaults), no
discounts, as the ride-request route would build it. -/
def scenarioRide : RideDoc where
  passenger := 0
  driver := none
  vehicleType := "car"
  distance := 10
  estimatedDuration := 20
  fare := Fare.init
  status := .requested
  otp := 1234
  surge := ⟨false, 1⟩
  assignedAt := none
  pickedUpAt := none
  droppedAt := none
  completedAt := none
  cancelledAt := none
  cancellationReason := none
  paymentStatus := "pending"
  driverLocation := []

/-- The scenario ride with the surge multiplier raised to 2 while the
surge active flag stays false (the schema default; no code path in the
repository ever sets it). -/
def surgeRide : RideDoc := { scenarioRide with surge := ⟨false, 2⟩ }

/-- An eligible car driver 7000 meters from the pickup point: outside
the single 5000 meter search radius, inside a 10000 meter one. -/
def farDriver : DriverDoc where
  vehicleType := "car"
  isAvailable := true
  isOnline := true
  approvalStatus := "approved"
  backgroundCheckStatus := "approved"
  distToPickup := 7000
  stats := ⟨0, 0⟩
  earnings := ⟨0, 0, 0, 0⟩

/-- Status-route world whose ride still has the schema-default status
requested, with the passenger identifier 0. -/
def worldRequested : StatusWorld := ⟨scenarioRide, none, none⟩

/-- Status-route world whose ride is searching. -/
def worldSearching : StatusWorld :=
  ⟨{ scenarioRide with status := .searching }, none, none⟩

/-- A mid-trip driver document: on a trip (not available), 3 rides and
100 km so far, zero earnings recorded. -/
def busyDriver : DriverDoc := ⟨"car", false, true, "approved", "approved", 0, ⟨3, 100⟩, ⟨0, 0, 0, 0⟩⟩

/-- A ride in progress, assigned to driver 5, with a computed fare whose
driver share is 236 of a 295 total. -/
def progressRide : RideDoc :=
  { scenarioRide with
    status := .in_progress
    driver := some 5
    fare := { Fare.init with driverEarning := 236, totalFare := 295 } }

/-- Status-route world for the in-progress ride: the assigned driver is
busyDriver, the passenger has 7 rides so far. -/
def worldInProgress : StatusWorld := ⟨progressRide, some busyDriver, some ⟨7⟩⟩

/-- A ride already completed, for acceptance attempts on non-searching
rides. -/
def completedRide : RideDoc := { scenarioRide with status := .completed }

/-- Accept-route world holding the completed ride. -/
def acceptWorldDone : AcceptWorld := ⟨some completedRide, none, 0⟩

/-- Rounding a quantity floored at an integer minimum never goes below
the minimum: the floor of x + 1/2 is monotone and fixes integers. -/
lemma mathRound_max_ge (q : ℚ) (m : ℤ) :
    (m : ℚ) ≤ ((mathRound (max q (m : ℚ)) : ℤ) : ℚ) := by
  have h : m ≤ mathRound (max q (m : ℚ)) := by
    apply Int.le_floor.mpr
    have := le_max_right q (m : ℚ)
    linarith
  exact_mod_cast h

/-- The car fare configuration in closed form. -/
lemma getFareConfig_car : getFareConfig "car" = ⟨50, 15, 2, 60⟩ := by rfl

/-- Claim C1: the spec asks that, of N concurrent acceptance attempts on
a searching ride, exactly one succeed and the rest fail with
AlreadyAssigned, decided by an exclusive update of the ride record.  The
accept route has no such exclusion: each attempt reads the ride and
checks the status on its snapshot, then saves.  Under the interleaving
read-0, read-1, write-0, write-1 of two eligible attempts, both status
guards see searching, both attempts respond accepted (none receives
AlreadyAssigned), and the second write silently overwrites the driver
binding of the first, leaving driver 1 bound after two commits. -/
theorem accept_race_double_win :
    (runRace (initRace 2) [0, 1, 0, 1]).result
        = [some .accepted, some .accepted] ∧
    (runRace (initRace 2) [0, 1, 0, 1]).rideDriver = some 1 ∧
    (runRace (initRace 2) [0, 1, 0, 1]).rideStatus = .driver_assigned := by
  decide

/-- Claim C2: an acceptance attempt on a ride whose status is not
searching fails with the AlreadyAssigned outcome (the 400 response of
the route) and mutates neither the ride nor any driver availability: the
returned world is exactly the input world. -/
theorem accept_nonsearching_already_assigned (w : AcceptWorld) (ride : RideDoc)
    (dId now : ℕ) (hr : w.ride = some ride) (hs : ride.status ≠ .searching) :
    acceptRide w dId now = (.alreadyAssigned, w) := by
  unfold acceptRide
  rw [hr]
  simp [hs]

/-- Witness for claim C2 at a concrete input: a completed ride. -/
theorem accept_nonsearching_already_assigned_witness :
    (acceptWorldDone.ride = some completedRide ∧ completedRide.status ≠ .searching) ∧
    acceptRide acceptWorldDone 3 7 = (.alreadyAssigned, acceptWorldDone) :=
  ⟨⟨rfl, by decide⟩,
    accept_nonsearching_already_assigned acceptWorldDone completedRide 3 7 rfl (by decide)⟩

/-- Claim C3 counterexample: the pair (requested, completed) is not in
the section 4.2 transition table, yet the status route does not answer
InvalidTransition for it: the validTransitions object has no key for
requested, the lookup throws, and the route answers the generic 500
internal error.  The ride is still left unchanged. -/
theorem requested_status_internal_error :
    (specTransitionTable .requested).contains .completed = false ∧
    (updateRideStatus worldRequested 0 .completed none 0).1 = .internalError ∧
    UpdateRes.internalError ≠ UpdateRes.invalidTransition ∧
    (updateRideStatus worldRequested 0 .completed none 0).2 = worldRequested :=
  ⟨by decide, rfl, by decide, rfl⟩

/-- Claim C3 as amended: for an authorized caller, whenever the code
table does not allow the requested transition, the world is unchanged
and the result is InvalidTransition or the 500 internal error; the
internal error occurs exactly when the source status has no key in the
validTransitions object (requested and payment_pending), and the
InvalidTransition error in all other cases. -/
theorem invalid_transition_characterization (w : StatusWorld) (userId : ℕ)
    (target : Status) (loc : Option LocInput) (now : ℕ)
    (hauth : w.ride.passenger = userId ∨ w.ride.driver = some userId)
    (hnot : codeAllows w.ride.status target = false) :
    (updateRideStatus w userId target loc now).2 = w ∧
    ((updateRideStatus w userId target loc now).1 = .invalidTransition ∨
      (updateRideStatus w userId target loc now).1 = .internalError) ∧
    ((updateRideStatus w userId target loc now).1 = .internalError ↔
      validTransitions w.ride.status = none) := by
  have hpass : (w.ride.passenger == userId
      || (match w.ride.driver with
          | some d => d == userId
          | none => false)) = true := by
    rcases hauth with h | h
    · simp [h]
    · rw [h]
      simp
  unfold updateRideStatus
  unfold codeAllows at hnot
  rcases hv : validTransitions w.ride.status with _ | allowed
  · rw [hv] at hnot
    simp [hpass, hv]
  · rw [hv] at hnot
    simp at hnot
    simp [hpass, hv, hnot]

/-- Witness for claim C3 at a concrete input: a searching ride, the
passenger as caller, target completed (not allowed from searching). -/
theorem invalid_transition_characterization_witness :
    (worldSearching.ride.passenger = 0 ∧
      codeAllows worldSearching.ride.status .completed = false) ∧
    ((updateRideStatus worldSearching 0 .completed none 0).2 = worldSearching ∧
      ((updateRideStatus worldSearching 0 .completed none 0).1 = .invalidTransition ∨
        (updateRideStatus worldSearching 0 .completed none 0).1 = .internalError) ∧
      ((updateRideStatus worldSearching 0 .completed none 0).1 = .internalError ↔
        validTransitions worldSearching.ride.status = none)) :=
  ⟨⟨rfl, by decide⟩,
    invalid_transition_characterization worldSearching 0 .completed none 0
      (Or.inl rfl) (by decide)⟩

/-- Claim C4 counterexample: a successful in-progress to completed
transition increments the ride and distance counters of the driver (3
to 4 rides, 100 to 110 km) and the ride counter of the passenger, but
credits no earnings: the earnings of the assigned driver are identical
before and after the transition although the fare carries a positive
driver share of 236. -/
theorem completed_transition_no_earnings :
    (updateRideStatus worldInProgress 0 .completed none 9).1 = .ok ∧
    (updateRideStatus worldInProgress 0 .completed none 9).2.ride.status = .completed ∧
    worldInProgress.ride.fare.driverEarning = 236 ∧
    ((updateRideStatus worldInProgress 0 .completed none 9).2.driverRec.map
        (fun d => d.earnings))
      = worldInProgress.driverRec.map (fun d => d.earnings) ∧
    ((updateRideStatus worldInProgress 0 .completed none 9).2.driverRec.map
        (fun d => d.stats.totalRides)) = some 4 ∧
    ((updateRideStatus worldInProgress 0 .completed none 9).2.driverRec.map
        (fun d => d.stats.totalDistance)) = some 110 ∧
    ((updateRideStatus worldInProgress 0 .completed none 9).2.passengerRec.map
        (fun p => p.totalRides)) = some 8 := by
  refine ⟨rfl, rfl, rfl, rfl, rfl, ?_, rfl⟩
  rw [show ((updateRideStatus worldInProgress 0 .completed none 9).2.driverRec.map
      (fun d => d.stats.totalDistance)) = some ((100 : ℚ) + 10) from rfl]
  norm_num

/-- Claim C4 as amended: a status-route call increments the driver ride
counter, adds the trip distance to the driver distance counter,
releases the driver, and increments the passenger ride counter
exactly once when and only when it succeeds with target completed, and
it never changes driver earnings under any outcome; driver earnings are
credited instead by the payment-processing route, which adds the stored
fare.driverEarning to the earnings of the driver exactly when the
gateway reports the intent succeeded. -/
theorem completed_transition_side_effects :
    (∀ (w : StatusWorld) (userId : ℕ) (target : Status)
        (loc : Option LocInput) (now : ℕ) (res : UpdateRes) (w2 : StatusWorld),
      updateRideStatus w userId target loc now = (res, w2) →
      (w2.driverRec.map (fun d => d.earnings) = w.driverRec.map (fun d => d.earnings)) ∧
      (w2.driverRec.map (fun d => d.stats.totalRides)
        = w.driverRec.map (fun d =>
            if res = .ok ∧ target = .completed
            then d.stats.totalRides + 1 else d.stats.totalRides)) ∧
      (w2.driverRec.map (fun d => d.stats.totalDistance)
        = w.driverRec.map (fun d =>
            if res = .ok ∧ target = .completed
            then d.stats.totalDistance + w.ride.distance else d.stats.totalDistance)) ∧
      (w2.driverRec.map (fun d => d.isAvailable)
        = w.driverRec.map (fun d =>
            if res = .ok ∧ target = .completed then true else d.isAvailable)) ∧
      (w2.passengerRec.map (fun p => p.totalRides)
        = w.passengerRec.map (fun p =>
            if res = .ok ∧ target = .completed
            then p.totalRides + 1 else p.totalRides))) ∧
    (∀ pw : PayWorld,
      ((processPayment pw).2.1.driverRec.map (fun d => d.earnings.total))
        = pw.driverRec.map (fun d =>
            if pw.intentStatus = "succeeded"
            then d.earnings.total + pw.ride.fare.driverEarning
            else d.earnings.total)) := by
  constructor
  · intro w userId target loc now res w2 heq
    simp only [updateRideStatus] at heq
    rcases hd : w.driverRec with _ | d <;> rcases hp : w.passengerRec with _ | p <;>
      rw [hd, hp] at heq <;> (repeat' split at heq) <;>
      cases heq <;> simp_all
  · intro pw
    unfold processPayment
    rcases hd : pw.driverRec with _ | d <;> split_ifs <;>
      simp_all [updateEarnings]

/-- Witness for claim C4 at a concrete input: the in-progress world,
completed target, with the pair equation discharged by reflexivity. -/
theorem completed_transition_side_effects_witness :
    ((updateRideStatus worldInProgress 0 .completed none 9).2.driverRec.map
        (fun d => d.earnings)
      = worldInProgress.driverRec.map (fun d => d.earnings)) ∧
    ((updateRideStatus worldInProgress 0 .completed none 9).2.driverRec.map
        (fun d => d.stats.totalRides)
      = worldInProgress.driverRec.map (fun d =>
          if (updateRideStatus worldInProgress 0 .completed none 9).1 = .ok ∧
              Status.completed = Status.completed
          then d.stats.totalRides + 1 else d.stats.totalRides)) ∧
    ((updateRideStatus worldInProgress 0 .completed none 9).2.driverRec.map
        (fun d => d.stats.totalDistance)
      = worldInProgress.driverRec.map (fun d =>
          if (updateRideStatus worldInProgress 0 .completed none 9).1 = .ok ∧
              Status.completed = Status.completed
          then d.stats.totalDistance + worldInProgress.ride.distance
          else d.stats.totalDistance)) ∧
    ((updateRideStatus worldInProgress 0 .completed none 9).2.driverRec.map
        (fun d => d.isAvailable)
      = worldInProgress.driverRec.map (fun d =>
          if (updateRideStatus worldInProgress 0 .completed none 9).1 = .ok ∧
              Status.completed = Status.completed
          then true else d.isAvailable)) ∧
    ((updateRideStatus worldInProgress 0 .completed none 9).2.passengerRec.map
        (fun p => p.totalRides)
      = worldInProgress.passengerRec.map (fun p =>
          if (updateRideStatus worldInProgress 0 .completed none 9).1 = .ok ∧
              Status.completed = Status.completed
          then p.totalRides + 1 else p.totalRides)) :=
  completed_transition_side_effects.1 worldInProgress 0 .completed none 9
    (updateRideStatus worldInProgress 0 .completed none 9).1
    (updateRideStatus worldInProgress 0 .completed none 9).2 rfl

/-- Claim C5 counterexample: with one eligible car driver 7000 meters
from the pickup point, an escalated 10000 meter search would find a
candidate, but the request route performs a single search at 5000
meters and, finding it empty, immediately cancels the ride with reason
No drivers available: the radius is never escalated. -/
theorem no_escalation_despite_candidates :
    findNearbyDrivers [farDriver] "car" 10000 = [farDriver] ∧
    findNearbyDrivers [farDriver] "car" 5000 = [] ∧
    (requestRide 0 5 "car" [farDriver] 0).1 = .noDriversAvailable ∧
    ((requestRide 0 5 "car" [farDriver] 0).2.map (fun r => r.status)) = some .cancelled ∧
    ((requestRide 0 5 "car" [farDriver] 0).2.map (fun r => r.cancellationReason))
      = some (some "No drivers available") := by
  have hf5 : findNearbyDrivers [farDriver] "car" 5000 = [] := by decide
  refine ⟨by decide, hf5, ?_, ?_, ?_⟩ <;>
  · unfold requestRide
    rw [if_neg (by norm_num : ¬ (5:ℚ) < 1/2)]
    simp only [hf5, List.isEmpty_nil, if_pos]
    try rfl

/-- Claim C5 as amended: whenever the trip distance passes the minimum
check and the single candidate search at radius 5000 meters yields no
eligible driver, the request route saves the ride as cancelled with
cancellation reason No drivers available, with no driver assigned and
no second search at a larger radius; no payment is created by this
flow. -/
theorem empty_search_cancels_ride (pid : ℕ) (distance : ℚ) (vt : String)
    (drivers : List DriverDoc) (rand : ℚ)
    (hd : ¬ distance < 1/2)
    (hempty : findNearbyDrivers drivers vt 5000 = []) :
    (requestRide pid distance vt drivers rand).1 = .noDriversAvailable ∧
    ∃ ride, (requestRide pid distance vt drivers rand).2 = some ride ∧
      ride.status = .cancelled ∧
      ride.cancellationReason = some "No drivers available" ∧
      ride.driver = none := by
  unfold requestRide
  rw [if_neg hd]
  simp only [hempty, List.isEmpty_nil, if_pos]
  exact ⟨trivial, _, rfl, rfl, rfl, rfl⟩

/-- Witness for claim C5 at a concrete input: an empty driver store and
a one kilometer trip. -/
theorem empty_search_cancels_ride_witness :
    (¬ (1:ℚ) < 1/2 ∧ findNearbyDrivers [] "car" 5000 = []) ∧
    ((requestRide 7 1 "car" [] 0).1 = .noDriversAvailable ∧
      ∃ ride, (requestRide 7 1 "car" [] 0).2 = some ride ∧
        ride.status = .cancelled ∧
        ride.cancellationReason = some "No drivers available" ∧
        ride.driver = none) :=
  ⟨⟨by norm_num, rfl⟩,
    empty_search_cancels_ride 7 1 "car" [] 0 (by norm_num) rfl⟩

/-- Claim C6 counterexample: the surge gate of calculateFare is the
surge.isActive flag, not the multiplier.  With the flag false and the
multiplier 2 (strictly above 1), no surge component is added: the surge
fare stays 0 instead of the claimed subtotal times multiplier minus one
(240), and the total is the un-surged 295. -/
theorem surge_gate_ignores_multiplier :
    1 < surgeRide.surge.multiplier ∧
    (240 : ℚ) * (surgeRide.surge.multiplier - 1) = 240 ∧
    (calculateFare surgeRide (getFareConfig "car")).fare.surgeFare = 0 ∧
    (calculateFare surgeRide (getFareConfig "car")).fare.totalFare = 295 := by
  refine ⟨by norm_num [surgeRide, scenarioRide], ?_, rfl, ?_⟩
  · norm_num [surgeRide, scenarioRide]
  · norm_num [calculateFare, getFareConfig_car, surgeRide, scenarioRide,
      Fare.init, mathRound]

/-- Claim C6 as amended: calculateFare adds the surge component if and
only if surge.isActive is true; when active, surgeFare is the base
subtotal times multiplier minus one (zero at multiplier 1, negative
below 1) and is included in the subtotal on which the platform fee and
tax are computed; when inactive the stored surge fare is untouched and
nothing is added, whatever the multiplier. -/
theorem surge_gate_is_active_flag (ride : RideDoc) (cfg : FareConfig) :
    (calculateFare ride cfg).fare.surgeFare
      = (if ride.surge.isActive
          then (cfg.baseRate + ride.distance * cfg.perKmRate
                + ride.estimatedDuration * cfg.perMinuteRate) * (ride.surge.multiplier - 1)
          else ride.fare.surgeFare) ∧
    (calculateFare ride cfg).fare.platformFee
      = ((mathRound (((cfg.baseRate + ride.distance * cfg.perKmRate
            + ride.estimatedDuration * cfg.perMinuteRate)
            + (if ride.surge.isActive then (calculateFare ride cfg).fare.surgeFare else 0))
            * (5/100)) : ℤ) : ℚ) ∧
    (calculateFare ride cfg).fare.taxes
      = ((mathRound (((cfg.baseRate + ride.distance * cfg.perKmRate
            + ride.estimatedDuration * cfg.perMinuteRate)
            + (if ride.surge.isActive then (calculateFare ride cfg).fare.surgeFare else 0))
            * (18/100)) : ℤ) : ℚ) := by
  cases h : ride.surge.isActive <;> simp [calculateFare, h]

/-- Claim C7: for every ride (any distance, duration, surge state and
discount fields) and every vehicle class string, the total fare computed
by calculateFare is at least the minimum fare of the class
configuration, thanks to the Math.max floor applied before the final
rounding. -/
theorem total_fare_ge_minimum (ride : RideDoc) (vt : String) :
    (getFareConfig vt).minimumFare ≤ (calculateFare ride (getFareConfig vt)).fare.totalFare := by
  have key : ∀ (cfg : FareConfig) (m : ℤ), cfg.minimumFare = (m : ℚ) →
      cfg.minimumFare ≤ (calculateFare ride cfg).fare.totalFare := by
    intro cfg m hm
    simp only [calculateFare, hm]
    exact mathRound_max_ge _ m
  unfold getFareConfig
  split_ifs
  · exact key _ 25 (by norm_num)
  · exact key _ 40 (by norm_num)
  · exact key _ 60 (by norm_num)
  · exact key _ 80 (by norm_num)
  · exact key _ 60 (by norm_num)

/-- Claim C8: on the scenario inputs (distance 10 km, duration 20
minutes, car configuration 50/15/2 with minimum 60, no surge, no
discount) calculateFare yields base 50, distance fare 150, time fare 40,
subtotal 240, platform fee 12, tax the rounding of 18 percent of 240
(43), and total exactly 295. -/
theorem fare_scenario_values :
    (calculateFare scenarioRide (getFareConfig "car")).fare.baseFare = 50 ∧
    (calculateFare scenarioRide (getFareConfig "car")).fare.distanceFare = 150 ∧
    (calculateFare scenarioRide (getFareConfig "car")).fare.timeFare = 40 ∧
    (calculateFare scenarioRide (getFareConfig "car")).fare.baseFare
      + (calculateFare scenarioRide (getFareConfig "car")).fare.distanceFare
      + (calculateFare scenarioRide (getFareConfig "car")).fare.timeFare = 240 ∧
    (calculateFare scenarioRide (getFareConfig "car")).fare.platformFee = 12 ∧
    (calculateFare scenarioRide (getFareConfig "car")).fare.taxes
      = ((mathRound (240 * (18/100)) : ℤ) : ℚ) ∧
    (calculateFare scenarioRide (getFareConfig "car")).fare.taxes = 43 ∧
    (calculateFare scenarioRide (getFareConfig "car")).fare.totalFare = 295 := by
  norm_num [calculateFare, getFareConfig_car, scenarioRide, Fare.init, mathRound]

/-- Claim C9: for every ride and configuration, the driver earning
stored by calculateFare is the rounding of 8/10 of the total fare, and
driver earning plus platform commission equals the total fare exactly,
since the commission is defined as the difference. -/
theorem earnings_split_consistent (ride : RideDoc) (cfg : FareConfig) :
    (calculateFare ride cfg).fare.driverEarning
      = ((mathRound ((calculateFare ride cfg).fare.totalFare * (8/10)) : ℤ) : ℚ) ∧
    (calculateFare ride cfg).fare.driverEarning
      + (calculateFare ride cfg).fare.platformCommission
      = (calculateFare ride cfg).fare.totalFare := by
  simp only [calculateFare]
  constructor
  · trivial
  · ring

/-- Claim C10: for every value of the random source in the interval
from 0 inclusive to 1 exclusive, the generated pickup verification code
is an integer between 1000 and 9999 inclusive, hence its decimal
representation has exactly four digits. -/
theorem otp_four_digits (rand : ℚ) (h0 : 0 ≤ rand) (h1 : rand < 1) :
    1000 ≤ generateOTP rand ∧ generateOTP rand ≤ 9999 ∧
    (Nat.digits 10 (generateOTP rand)).length = 4 := by
  have hfl : (1000 : ℤ) ≤ ⌊(1000 : ℚ) + rand * 9000⌋ := by
    apply Int.le_floor.mpr
    push_cast
    nlinarith
  have hfu : ⌊(1000 : ℚ) + rand * 9000⌋ < 10000 := by
    apply Int.floor_lt.mpr
    push_cast
    nlinarith
  have g1 : 1000 ≤ generateOTP rand := by
    unfold generateOTP
    omega
  have g2 : generateOTP rand ≤ 9999 := by
    unfold generateOTP
    omega
  refine ⟨g1, g2, ?_⟩
  have hne : generateOTP rand ≠ 0 := by omega
  rw [Nat.digits_len 10 _ (by norm_num) hne]
  have hlog : Nat.log 10 (generateOTP rand) = 3 := by
    apply Nat.log_eq_of_pow_le_of_lt_pow
    · norm_num
      omega
    · norm_num
      omega
  omega

/-- Witness for claim C10 at the concrete random value one half. -/
theorem otp_four_digits_witness :
    (0 ≤ (1/2 : ℚ) ∧ (1/2 : ℚ) < 1) ∧
    (1000 ≤ generateOTP (1/2) ∧ generateOTP (1/2) ≤ 9999 ∧
      (Nat.digits 10 (generateOTP (1/2))).length = 4) :=
  ⟨⟨by norm_num, by norm_num⟩, otp_four_digits (1/2) (by norm_num) (by norm_num)⟩
